import Mathlib

/-! Verification of the MagneticHeroText class from this repository.

The definitions below are a shallow embedding of the JavaScript source:
JavaScript numbers are modelled as real numbers, the text content of DOM
elements as lists of characters, Math.atan2 as the argument of a complex
number, and the single-threaded event loop as explicit state transitions
on a record of the instance fields together with the set of callbacks the
instance has scheduled and not yet cancelled. -/

open Filter Topology

namespace MagneticHeroText

/-- Configuration record built in the constructor; the field names and the
default values (200, 25, the easing string, 150, 300) mirror the options
object of the source. -/
structure Config where
  maxDistance : ℝ
  maxDisplacement : ℝ
  springEasing : String
  activeDuration : ℕ
  resetDuration : ℕ

/-- Cached bounding rectangle of one word, in document coordinates, as
produced by cacheBoundingRects. -/
structure WordRect where
  left : ℝ
  top : ℝ
  width : ℝ
  height : ℝ
  centerX : ℝ
  centerY : ℝ

/-- Math.atan2 y x, modelled as the argument of the complex number x + y i;
both have range (-pi, pi] and both send (0, 0) to 0. -/
noncomputable def atan2 (y x : ℝ) : ℝ := Complex.arg ⟨x, y⟩

/-- calculateMagneticForce(wordRect, mouseX, mouseY): distance from the
cursor to the word center, early return of the zero vector outside the
field, otherwise linear falloff force, and translation values obtained
from the direction angle. -/
noncomputable def calculateMagneticForce (cfg : Config) (wordRect : WordRect)
    (mouseX mouseY : ℝ) : ℝ × ℝ :=
  let deltaX := mouseX - wordRect.centerX
  let deltaY := mouseY - wordRect.centerY
  let distance := Real.sqrt (deltaX * deltaX + deltaY * deltaY)
  if distance ≥ cfg.maxDistance then (0, 0)
  else
    let force := 1 - distance / cfg.maxDistance
    let displacement := force * cfg.maxDisplacement
    let angle := atan2 deltaY deltaX
    (Real.cos angle * displacement, Real.sin angle * displacement)

/-- Distance from the pointer to a word center, exactly the expression
computed inside calculateMagneticForce. -/
noncomputable def distTo (r : WordRect) (mouseX mouseY : ℝ) : ℝ :=
  Real.sqrt ((mouseX - r.centerX) * (mouseX - r.centerX) +
    (mouseY - r.centerY) * (mouseY - r.centerY))

/-- Euclidean magnitude of the displacement vector returned by
calculateMagneticForce. -/
noncomputable def dispMag (cfg : Config) (r : WordRect) (mouseX mouseY : ℝ) : ℝ :=
  Real.sqrt ((calculateMagneticForce cfg r mouseX mouseY).1 ^ 2 +
    (calculateMagneticForce cfg r mouseX mouseY).2 ^ 2)

/-- Radial profile of the force computation: the displacement magnitude that
the two branches of calculateMagneticForce produce at distance d from the
word center. -/
noncomputable def forceMagnitude (cfg : Config) (d : ℝ) : ℝ :=
  if d ≥ cfg.maxDistance then 0 else (1 - d / cfg.maxDistance) * cfg.maxDisplacement

/-- Accumulator-based splitting of a character list on the literal space
character, with the semantics of the JavaScript String.split of a
one-character separator: consecutive separators yield empty tokens and the
empty string yields the single-element list of the empty token. -/
def splitOnSpaceAux : List Char → List Char → List (List Char)
  | [], acc => [acc.reverse]
  | c :: cs, acc =>
    if c = ' ' then acc.reverse :: splitOnSpaceAux cs []
    else splitOnSpaceAux cs (c :: acc)

/-- originalText.split(" ") from splitTextIntoWords: the word texts stored in
the word spans, in order. -/
def splitOnSpace (cs : List Char) : List (List Char) := splitOnSpaceAux cs []

/-- words.join(" ") as used by destroy to reconstruct the original string
from the word span texts. -/
def joinSpace : List (List Char) → List Char
  | [] => []
  | [w] => w
  | w :: ws => w ++ ' ' :: joinSpace ws

/-- Browser environment signals read by the eligibility check: the
ontouchstart property of window, navigator.maxTouchPoints, window.innerWidth
in logical pixels, and the reduced-motion media query result. -/
structure Env where
  touchEventsInWindow : Bool
  maxTouchPoints : ℕ
  innerWidth : ℤ
  prefersReducedMotion : Bool
deriving DecidableEq

/-- shouldInitialize(): false for touch devices, for viewports of width at
most 1024, and under a reduced-motion preference; true otherwise. The three
early returns mirror the source. -/
def shouldInitialize (env : Env) : Bool :=
  if env.touchEventsInWindow = true ∨ 0 < env.maxTouchPoints then false
  else if env.innerWidth ≤ 1024 then false
  else if env.prefersReducedMotion = true then false
  else true

/-- Lifecycle states of the spec, mapped onto the return paths of the code:
an aborted init leaves the instance Uninitialized, a completed init makes it
Active, and destroy makes it Destroyed. -/
inductive LifecycleState where
  | Uninitialized
  | Active
  | Destroyed
deriving DecidableEq

/-- Observable outcome of init(): which lifecycle state was reached, whether
a console warning was issued, whether the DOM was mutated, whether listeners
were attached, and which word texts were created by the segmenter. -/
structure InitOutcome where
  state : LifecycleState
  warned : Bool
  domMutated : Bool
  listenersAttached : Bool
  geometryCached : Bool
  words : List (List Char)
deriving DecidableEq

/-- init(): abort silently when the eligibility check fails; warn and abort
when the selector resolves to no element (the element argument is the
querySelector result together with its text content); otherwise run the
segmenter, cache geometry and attach listeners. -/
def init (env : Env) (element : Option (List Char)) : InitOutcome :=
  if shouldInitialize env = false then
    { state := .Uninitialized, warned := false, domMutated := false,
      listenersAttached := false, geometryCached := false, words := [] }
  else
    match element with
    | none =>
      { state := .Uninitialized, warned := true, domMutated := false,
        listenersAttached := false, geometryCached := false, words := [] }
    | some text =>
      { state := .Active, warned := false, domMutated := true,
        listenersAttached := true, geometryCached := true,
        words := splitOnSpace text }

/-- Host environment of a running instance: the window state consumed by the
eligibility re-check, the scroll offsets read when a frame callback runs,
and the layout measurement performed by cacheBoundingRects for the word at a
given index. -/
structure MEnv where
  win : Env
  scrollX : ℝ
  scrollY : ℝ
  measure : ℕ → WordRect

/-- Mutable fields of an initialized instance, together with the callbacks it
has scheduled: rafId holds the client coordinates captured by the closure of
the pending requestAnimationFrame callback, resizePending records an
outstanding resize debounce timeout, and activeClearCount the number of
outstanding timeouts scheduled by reset to clear the active flag. The
elementText field is the plain text content of the container (empty while
the word spans are attached, restored by destroy). -/
structure MState where
  elementText : List Char
  words : List (List Char)
  wordTransforms : List (ℝ × ℝ)
  wordActiveClass : Bool
  wordRects : List WordRect
  rafId : Option (ℝ × ℝ)
  isActive : Bool
  resizePending : Bool
  activeClearCount : ℕ
  listeners : Bool

/-- handleMouseMove(e): return immediately if a frame is already pending,
otherwise schedule one frame callback capturing this event, and on the first
interaction set the active flag and add the active class to every word. -/
def handleMouseMove (e : ℝ × ℝ) (s : MState) : MState :=
  if s.rafId.isSome then s
  else
    let s1 := { s with rafId := some e }
    if s1.isActive then s1
    else { s1 with isActive := true, wordActiveClass := true }

/-- updateWordPositions(mouseX, mouseY): recompute the transform of every
word from its cached rectangle and the given pointer position. -/
noncomputable def updateWordPositions (cfg : Config) (mouseX mouseY : ℝ)
    (s : MState) : MState :=
  let ts := (s.words.zip s.wordRects).map
    (fun wr => calculateMagneticForce cfg wr.2 mouseX mouseY)
  { s with wordTransforms := ts }

/-- A frame boundary: if a frame callback is pending, it runs now, reading
the scroll offsets at this moment, adding them to the captured client
coordinates, updating every word and clearing the pending marker. The second
component lists the document-coordinate pointer positions from which style
updates were computed at this boundary. -/
noncomputable def fireAnimationFrame (env : MEnv) (cfg : Config) (s : MState) :
    MState × List (ℝ × ℝ) :=
  match s.rafId with
  | none => (s, [])
  | some e =>
    let mouseX := e.1 + env.scrollX
    let mouseY := e.2 + env.scrollY
    ({ updateWordPositions cfg mouseX mouseY s with rafId := none },
     [(mouseX, mouseY)])

/-- reset(): drive every word back to the zero transform and, if the instance
is active, schedule a timeout that will later clear the active flag. -/
def reset (s : MState) : MState :=
  let s1 := { s with wordTransforms := s.words.map (fun _ => ((0 : ℝ), (0 : ℝ))) }
  if s1.isActive then { s1 with activeClearCount := s1.activeClearCount + 1 }
  else s1

/-- handleMouseLeave(): cancel any pending frame callback, then reset. -/
def handleMouseLeave (s : MState) : MState :=
  reset { s with rafId := none }

/-- handleResize(): clear any previous debounce timeout and start a new one;
at most one resize timeout is ever outstanding. -/
def handleResize (s : MState) : MState :=
  { s with resizePending := true }

/-- cacheBoundingRects(): measure every word and rebuild the rectangle cache
wholesale. -/
def cacheBoundingRects (env : MEnv) (s : MState) : MState :=
  { s with wordRects := (List.range s.words.length).map env.measure }

/-- The timeout scheduled by reset fires: remove the active class from every
word and clear the active flag. Guarded by the count of outstanding
timeouts. -/
def fireActiveClear (s : MState) : MState :=
  if 0 < s.activeClearCount then
    { s with
      activeClearCount := s.activeClearCount - 1,
      wordActiveClass := false, isActive := false }
  else s

/-- destroy(): cancel the pending frame callback, remove the listeners, join
the word texts with single spaces and restore the result as the container
text, then clear the cached sequences and the active flag. The source does
not touch resizeTimeout here and never stored the reset timeout, so
resizePending and activeClearCount are left unchanged. -/
def destroy (s : MState) : MState :=
  let s1 := { s with rafId := none }
  let s2 := { s1 with listeners := false }
  let s3 := { s2 with elementText := joinSpace s2.words }
  { s3 with words := [], wordRects := [], isActive := false }

/-- The resize debounce timeout fires: re-run the eligibility check, destroy
on failure, otherwise rebuild the geometry cache. Guarded by the outstanding
timeout marker. -/
def fireResizeTimer (env : MEnv) (s : MState) : MState :=
  if s.resizePending then
    let s1 := { s with resizePending := false }
    if shouldInitialize env.win = false then destroy s1
    else cacheBoundingRects env s1
  else s

/-- Events an initialized instance can receive between segmentation and
teardown: pointer moves and leaves, frame boundaries, resize events, and the
firing of the two kinds of timeouts. -/
inductive Op where
  | move (p : ℝ × ℝ)
  | frame
  | leave
  | resize
  | resizeTimer
  | activeClear

/-- One event-loop step of the instance. -/
noncomputable def step (env : MEnv) (cfg : Config) (s : MState) : Op → MState
  | .move p => handleMouseMove p s
  | .frame => (fireAnimationFrame env cfg s).1
  | .leave => handleMouseLeave s
  | .resize => handleResize s
  | .resizeTimer => fireResizeTimer env s
  | .activeClear => fireActiveClear s

/-- Run a sequence of events. -/
noncomputable def run (env : MEnv) (cfg : Config) (ops : List Op) (s : MState) :
    MState := ops.foldl (step env cfg) s

/-- Deliver a burst of pointer-move events and then the next frame boundary;
the second component lists the positions from which style updates were
computed at that boundary. -/
noncomputable def runBurst (env : MEnv) (cfg : Config) (ps : List (ℝ × ℝ))
    (s : MState) : MState × List (ℝ × ℝ) :=
  fireAnimationFrame env cfg (ps.foldl (fun s p => handleMouseMove p s) s)

/-- Instance state right after a completed init on container text: the word
spans hold the split tokens, the container text node has been discarded, the
geometry cache is populated, no callback is pending and the listeners are
attached. -/
noncomputable def initMState (env : MEnv) (text : List Char) : MState :=
  { elementText := []
  , words := splitOnSpace text
  , wordTransforms := (splitOnSpace text).map (fun _ => ((0 : ℝ), (0 : ℝ)))
  , wordActiveClass := false
  , wordRects := (List.range (splitOnSpace text).length).map env.measure
  , rafId := none
  , isActive := false
  , resizePending := false
  , activeClearCount := 0
  , listeners := true }

/-- Default configuration produced by the constructor with empty options. -/
noncomputable def cfg0 : Config :=
  { maxDistance := 200, maxDisplacement := 25,
    springEasing := "cubic-bezier(0.34, 1.56, 0.64, 1)",
    activeDuration := 150, resetDuration := 300 }

/-- A word rectangle centered at the origin. -/
noncomputable def rect0 : WordRect := ⟨0, 0, 0, 0, 0, 0⟩

/-- A desktop, mouse-driven, motion-allowing environment. -/
def envDesktop : Env :=
  { touchEventsInWindow := false, maxTouchPoints := 0, innerWidth := 1920,
    prefersReducedMotion := false }

/-- A touch-capable environment with a small viewport and reduced motion. -/
def envTouch : Env :=
  { touchEventsInWindow := true, maxTouchPoints := 5, innerWidth := 500,
    prefersReducedMotion := true }

/-- A narrow, reduced-motion environment, failing the eligibility check. -/
def envOff : Env :=
  { touchEventsInWindow := false, maxTouchPoints := 0, innerWidth := 500,
    prefersReducedMotion := true }

/-- Machine environment over the eligible desktop window, with zero scroll
offsets and a trivial layout. -/
noncomputable def envM1 : MEnv :=
  { win := envDesktop, scrollX := 0, scrollY := 0,
    measure := fun _ => ⟨0, 0, 0, 0, 0, 0⟩ }

/-- Machine environment whose window fails the eligibility check. -/
noncomputable def envM0 : MEnv :=
  { win := envOff, scrollX := 0, scrollY := 0,
    measure := fun _ => ⟨0, 0, 0, 0, 0, 0⟩ }

/-- An instance initialized on the container text Hello World in the eligible
environment. -/
noncomputable def s0 : MState := initMState envM1 ("Hello World".toList)

/-! Helper lemmas about the force computation. -/

theorem force_far (cfg : Config) (r : WordRect) (mouseX mouseY : ℝ)
    (h : distTo r mouseX mouseY ≥ cfg.maxDistance) :
    calculateMagneticForce cfg r mouseX mouseY = (0, 0) := by
  simp only [distTo] at h
  simp only [calculateMagneticForce]
  rw [if_pos h]

theorem force_near (cfg : Config) (r : WordRect) (mouseX mouseY : ℝ)
    (h : ¬ distTo r mouseX mouseY ≥ cfg.maxDistance) :
    calculateMagneticForce cfg r mouseX mouseY =
      (Real.cos (atan2 (mouseY - r.centerY) (mouseX - r.centerX)) *
        ((1 - distTo r mouseX mouseY / cfg.maxDistance) * cfg.maxDisplacement),
       Real.sin (atan2 (mouseY - r.centerY) (mouseX - r.centerX)) *
        ((1 - distTo r mouseX mouseY / cfg.maxDistance) * cfg.maxDisplacement)) := by
  simp only [distTo] at h ⊢
  simp only [calculateMagneticForce]
  rw [if_neg h]

theorem distTo_nonneg (r : WordRect) (mouseX mouseY : ℝ) :
    0 ≤ distTo r mouseX mouseY := Real.sqrt_nonneg _

theorem dispMag_eq_forceMagnitude (cfg : Config) (r : WordRect)
    (mouseX mouseY : ℝ) (hM : 0 ≤ cfg.maxDisplacement) :
    dispMag cfg r mouseX mouseY = forceMagnitude cfg (distTo r mouseX mouseY) := by
  by_cases h : distTo r mouseX mouseY ≥ cfg.maxDistance
  · rw [dispMag, force_far cfg r mouseX mouseY h, forceMagnitude, if_pos h]
    norm_num
  · have hd0 : 0 ≤ distTo r mouseX mouseY := distTo_nonneg r mouseX mouseY
    have hlt : distTo r mouseX mouseY < cfg.maxDistance := lt_of_not_ge h
    have hD : 0 < cfg.maxDistance := lt_of_le_of_lt hd0 hlt
    have hf : 0 ≤ 1 - distTo r mouseX mouseY / cfg.maxDistance := by
      have := (div_lt_one hD).mpr hlt
      linarith
    have hdp : 0 ≤ (1 - distTo r mouseX mouseY / cfg.maxDistance) * cfg.maxDisplacement :=
      mul_nonneg hf hM
    rw [dispMag, force_near cfg r mouseX mouseY h, forceMagnitude, if_neg h]
    set θ := atan2 (mouseY - r.centerY) (mouseX - r.centerX) with hθ
    set dp := (1 - distTo r mouseX mouseY / cfg.maxDistance) * cfg.maxDisplacement with hdpdef
    have hsq : (Real.cos θ * dp) ^ 2 + (Real.sin θ * dp) ^ 2 =
        (Real.sin θ ^ 2 + Real.cos θ ^ 2) * dp ^ 2 := by ring
    rw [hsq, Real.sin_sq_add_cos_sq, one_mul, Real.sqrt_sq hdp]

theorem forceMagnitude_anti (cfg : Config) (hD : 0 < cfg.maxDistance)
    (hM : 0 ≤ cfg.maxDisplacement) {d1 d2 : ℝ} (h : d1 ≤ d2) :
    forceMagnitude cfg d2 ≤ forceMagnitude cfg d1 := by
  unfold forceMagnitude
  by_cases h2 : d2 ≥ cfg.maxDistance
  · rw [if_pos h2]
    by_cases h1 : d1 ≥ cfg.maxDistance
    · rw [if_pos h1]
    · rw [if_neg h1]
      have hlt : d1 / cfg.maxDistance < 1 := (div_lt_one hD).mpr (lt_of_not_ge h1)
      have : 0 ≤ 1 - d1 / cfg.maxDistance := by linarith
      exact mul_nonneg this hM
  · have h1 : ¬ d1 ≥ cfg.maxDistance := fun hge => h2 (le_trans hge h)
    rw [if_neg h2, if_neg h1]
    apply mul_le_mul_of_nonneg_right _ hM
    have hdiv : d1 / cfg.maxDistance ≤ d2 / cfg.maxDistance := by gcongr
    linarith

theorem forceMagnitude_le (cfg : Config) (hD : 0 < cfg.maxDistance)
    (hM : 0 ≤ cfg.maxDisplacement) {d : ℝ} (hd : 0 ≤ d) :
    forceMagnitude cfg d ≤ cfg.maxDisplacement := by
  unfold forceMagnitude
  by_cases h : d ≥ cfg.maxDistance
  · rw [if_pos h]; exact hM
  · rw [if_neg h]
    have hdiv : 0 ≤ d / cfg.maxDistance := div_nonneg hd hD.le
    have : 1 - d / cfg.maxDistance ≤ 1 := by linarith
    calc (1 - d / cfg.maxDistance) * cfg.maxDisplacement
        ≤ 1 * cfg.maxDisplacement := mul_le_mul_of_nonneg_right this hM
      _ = cfg.maxDisplacement := one_mul _

theorem forceMagnitude_tendsto (cfg : Config) (hD : 0 < cfg.maxDistance) :
    Tendsto (forceMagnitude cfg)
      (nhdsWithin cfg.maxDistance (Set.Iio cfg.maxDistance)) (nhds 0) := by
  have hc : Continuous (fun d : ℝ => (1 - d / cfg.maxDistance) * cfg.maxDisplacement) := by
    exact (continuous_const.sub (continuous_id.div_const _)).mul continuous_const
  have h1 : Tendsto (fun d : ℝ => (1 - d / cfg.maxDistance) * cfg.maxDisplacement)
      (nhdsWithin cfg.maxDistance (Set.Iio cfg.maxDistance))
      (nhds ((1 - cfg.maxDistance / cfg.maxDistance) * cfg.maxDisplacement)) :=
    (hc.tendsto _).mono_left nhdsWithin_le_nhds
  rw [div_self (ne_of_gt hD)] at h1
  norm_num at h1
  apply Filter.Tendsto.congr' _ h1
  filter_upwards [self_mem_nhdsWithin] with d hd
  rw [forceMagnitude, if_neg (not_le.mpr hd)]

theorem force_at_center (cfg : Config) (r : WordRect) (hD : 0 < cfg.maxDistance) :
    calculateMagneticForce cfg r r.centerX r.centerY = (cfg.maxDisplacement, 0) := by
  have hzero : distTo r r.centerX r.centerY = 0 := by
    simp [distTo]
  have hnear : ¬ distTo r r.centerX r.centerY ≥ cfg.maxDistance := by
    rw [hzero]; exact not_le.mpr hD
  rw [force_near cfg r r.centerX r.centerY hnear, hzero]
  have hmk : (⟨r.centerX - r.centerX, r.centerY - r.centerY⟩ : ℂ) = 0 := by
    simp [Complex.ext_iff]
  rw [atan2, hmk, Complex.arg_zero, Real.cos_zero, Real.sin_zero]
  norm_num

/-! Helper lemmas about text segmentation and the event-loop model. -/

theorem splitOnSpaceAux_ne_nil : ∀ (cs acc : List Char), splitOnSpaceAux cs acc ≠ [] := by
  intro cs
  induction cs with
  | nil => intro acc; simp [splitOnSpaceAux]
  | cons c cs ih =>
    intro acc
    by_cases hc : c = ' '
    · simp [splitOnSpaceAux, hc]
    · simp only [splitOnSpaceAux, if_neg hc]
      exact ih _

theorem joinSpace_cons_cons (w x : List Char) (xs : List (List Char)) :
    joinSpace (w :: x :: xs) = w ++ ' ' :: joinSpace (x :: xs) := rfl

theorem joinSpace_splitOnSpaceAux : ∀ (cs acc : List Char),
    joinSpace (splitOnSpaceAux cs acc) = acc.reverse ++ cs := by
  intro cs
  induction cs with
  | nil => intro acc; simp [splitOnSpaceAux, joinSpace]
  | cons c cs ih =>
    intro acc
    by_cases hc : c = ' '
    · simp only [splitOnSpaceAux, if_pos hc]
      obtain ⟨h, t, heq⟩ := List.exists_cons_of_ne_nil (splitOnSpaceAux_ne_nil cs [])
      rw [heq]
      show joinSpace (acc.reverse :: h :: t) = acc.reverse ++ c :: cs
      rw [joinSpace_cons_cons, ← heq, ih []]
      simp [hc]
    · simp only [splitOnSpaceAux, if_neg hc]
      rw [ih (c :: acc)]
      simp

theorem joinSpace_splitOnSpace (cs : List Char) : joinSpace (splitOnSpace cs) = cs := by
  rw [splitOnSpace, joinSpace_splitOnSpaceAux]
  simp

theorem destroy_elementText (s : MState) :
    (destroy s).elementText = joinSpace s.words := rfl

theorem step_preserves_words (env : MEnv) (cfg : Config)
    (helig : shouldInitialize env.win = true) (op : Op) (s : MState) :
    (step env cfg s op).words = s.words := by
  cases op with
  | move p =>
    simp only [step, handleMouseMove]
    split
    · rfl
    · split <;> rfl
  | frame =>
    simp only [step, fireAnimationFrame]
    cases h : s.rafId with
    | none => rfl
    | some e => simp [updateWordPositions]
  | leave =>
    simp only [step, handleMouseLeave, reset]
    split <;> rfl
  | resize => rfl
  | resizeTimer =>
    simp only [step, fireResizeTimer]
    split
    · rw [if_neg (by simp [helig])]
      simp [cacheBoundingRects]
    · rfl
  | activeClear =>
    simp only [step, fireActiveClear]
    split <;> rfl

theorem run_preserves_words (env : MEnv) (cfg : Config)
    (helig : shouldInitialize env.win = true) (ops : List Op) :
    ∀ s : MState, (run env cfg ops s).words = s.words := by
  induction ops with
  | nil => intro s; rfl
  | cons op ops ih =>
    intro s
    show (List.foldl (step env cfg) s (op :: ops)).words = s.words
    rw [List.foldl_cons]
    have h1 := ih (step env cfg s op)
    rw [run] at h1
    rw [h1, step_preserves_words env cfg helig op s]

theorem handleMouseMove_of_pending {s : MState} (h : s.rafId.isSome = true)
    (p : ℝ × ℝ) : handleMouseMove p s = s := by
  rw [handleMouseMove, if_pos h]

theorem handleMouseMove_rafId {s : MState} (h : s.rafId = none) (p : ℝ × ℝ) :
    (handleMouseMove p s).rafId = some p := by
  rw [handleMouseMove, if_neg (by simp [h])]
  dsimp only
  split <;> rfl

theorem foldl_moves_pending : ∀ (ps : List (ℝ × ℝ)) (s : MState),
    s.rafId.isSome = true →
    List.foldl (fun s p => handleMouseMove p s) s ps = s := by
  intro ps
  induction ps with
  | nil => intro s _; rfl
  | cons p ps ih =>
    intro s h
    simp only [List.foldl_cons]
    rw [handleMouseMove_of_pending h p]
    exact ih s h

theorem fireAnimationFrame_snd (env : MEnv) (cfg : Config) (s : MState) :
    (fireAnimationFrame env cfg s).2 =
      match s.rafId with
      | none => []
      | some e => [(e.1 + env.scrollX, e.2 + env.scrollY)] := by
  cases h : s.rafId <;> simp [fireAnimationFrame, h]

theorem fireAnimationFrame_rafId (env : MEnv) (cfg : Config) (s : MState) :
    ((fireAnimationFrame env cfg s).1).rafId = none := by
  cases h : s.rafId <;> simp [fireAnimationFrame, h]

theorem runBurst_cons (env : MEnv) (cfg : Config) (p : ℝ × ℝ)
    (ps : List (ℝ × ℝ)) (s : MState) (h : s.rafId = none) :
    runBurst env cfg (p :: ps) s =
      fireAnimationFrame env cfg (handleMouseMove p s) := by
  rw [runBurst]
  simp only [List.foldl_cons]
  rw [foldl_moves_pending ps (handleMouseMove p s)
    (by rw [handleMouseMove_rafId h p]; rfl)]

/-! Claim theorems about the force computation. -/

/-- C5: for every word and every pointer position whose distance from the
word center is at least maxDistance, the computed displacement is the exact
zero vector, so the word is unaffected. -/
theorem outside_field_zero_vector (cfg : Config) (r : WordRect)
    (mouseX mouseY : ℝ) (h : distTo r mouseX mouseY ≥ cfg.maxDistance) :
    calculateMagneticForce cfg r mouseX mouseY = (0, 0) :=
  force_far cfg r mouseX mouseY h

/-- Witness for C5: with the default options, a pointer 300 units to the
right of a word center is outside the field and the displacement is zero. -/
theorem outside_field_zero_vector_witness :
    distTo rect0 300 0 ≥ cfg0.maxDistance ∧
    calculateMagneticForce cfg0 rect0 300 0 = (0, 0) := by
  have he : distTo rect0 300 0 = 300 := by
    rw [distTo]
    have h1 : ((300 : ℝ) - rect0.centerX) * ((300 : ℝ) - rect0.centerX) +
        ((0 : ℝ) - rect0.centerY) * ((0 : ℝ) - rect0.centerY) = 300 ^ 2 := by
      norm_num [rect0]
    rw [h1, Real.sqrt_sq (by norm_num : (0 : ℝ) ≤ 300)]
  have h : distTo rect0 300 0 ≥ cfg0.maxDistance := by
    rw [he]; norm_num [cfg0]
  exact ⟨h, outside_field_zero_vector cfg0 rect0 300 0 h⟩

/-- C6: when the pointer is exactly at a word center, the computed
displacement is the vector (maxDisplacement, 0) and its magnitude is exactly
maxDisplacement (the force factor is 1). -/
theorem at_center_full_displacement (cfg : Config) (r : WordRect)
    (hD : 0 < cfg.maxDistance) (hM : 0 ≤ cfg.maxDisplacement) :
    calculateMagneticForce cfg r r.centerX r.centerY = (cfg.maxDisplacement, 0) ∧
    dispMag cfg r r.centerX r.centerY = cfg.maxDisplacement := by
  have h1 := force_at_center cfg r hD
  refine ⟨h1, ?_⟩
  rw [dispMag, h1]
  have h2 : ((cfg.maxDisplacement, (0 : ℝ)).1) ^ 2 +
      ((cfg.maxDisplacement, (0 : ℝ)).2) ^ 2 = cfg.maxDisplacement ^ 2 := by
    norm_num
  rw [h2, Real.sqrt_sq hM]

/-- Witness for C6: with the default options the word under the cursor gets
displacement (25, 0). -/
theorem at_center_full_displacement_witness :
    0 < cfg0.maxDistance ∧ 0 ≤ cfg0.maxDisplacement ∧
    calculateMagneticForce cfg0 rect0 rect0.centerX rect0.centerY =
      (cfg0.maxDisplacement, 0) :=
  ⟨by norm_num [cfg0], by norm_num [cfg0],
   (at_center_full_displacement cfg0 rect0 (by norm_num [cfg0])
     (by norm_num [cfg0])).1⟩

/-- C7: whenever the computed displacement is nonzero, its direction points
from the word center toward the pointer: the angle of the returned vector
equals the angle of the vector from the center to the pointer. -/
theorem displacement_direction_toward_pointer (cfg : Config) (r : WordRect)
    (mouseX mouseY : ℝ) (hM : 0 ≤ cfg.maxDisplacement)
    (hnz : calculateMagneticForce cfg r mouseX mouseY ≠ (0, 0)) :
    Complex.arg ⟨(calculateMagneticForce cfg r mouseX mouseY).1,
      (calculateMagneticForce cfg r mouseX mouseY).2⟩ =
    Complex.arg ⟨mouseX - r.centerX, mouseY - r.centerY⟩ := by
  by_cases h : distTo r mouseX mouseY ≥ cfg.maxDistance
  · exact absurd (force_far cfg r mouseX mouseY h) hnz
  · rw [force_near cfg r mouseX mouseY h] at hnz ⊢
    dsimp only
    set θ := atan2 (mouseY - r.centerY) (mouseX - r.centerX) with hθ
    set dp := (1 - distTo r mouseX mouseY / cfg.maxDistance) * cfg.maxDisplacement
      with hdp
    have hd0 : 0 ≤ distTo r mouseX mouseY := distTo_nonneg r mouseX mouseY
    have hlt : distTo r mouseX mouseY < cfg.maxDistance := lt_of_not_ge h
    have hD : 0 < cfg.maxDistance := lt_of_le_of_lt hd0 hlt
    have hf : 0 < 1 - distTo r mouseX mouseY / cfg.maxDistance := by
      have := (div_lt_one hD).mpr hlt
      linarith
    have hdpnn : 0 ≤ dp := mul_nonneg hf.le hM
    have hdpne : dp ≠ 0 := by
      intro h0
      apply hnz
      rw [h0]
      norm_num
    have hdppos : 0 < dp := lt_of_le_of_ne hdpnn (Ne.symm hdpne)
    have key : (⟨Real.cos θ * dp, Real.sin θ * dp⟩ : ℂ) =
        (dp : ℂ) * (↑(Real.cos θ) + ↑(Real.sin θ) * Complex.I) := by
      simp only [Complex.ext_iff, Complex.mul_re, Complex.mul_im,
        Complex.ofReal_re, Complex.ofReal_im, Complex.add_re, Complex.add_im,
        Complex.I_re, Complex.I_im]
      constructor <;> ring
    rw [key, Complex.arg_real_mul _ hdppos, Complex.ofReal_cos, Complex.ofReal_sin,
      Complex.arg_cos_add_sin_mul_I (by rw [hθ, atan2]; exact Complex.arg_mem_Ioc _)]
    rw [hθ, atan2]

/-- Witness for C7: with the default options and the pointer at the word
center, the displacement (25, 0) is nonzero and its angle agrees with the
angle of the zero offset vector (both are 0). -/
theorem displacement_direction_toward_pointer_witness :
    0 ≤ cfg0.maxDisplacement ∧
    calculateMagneticForce cfg0 rect0 0 0 ≠ (0, 0) ∧
    Complex.arg ⟨(calculateMagneticForce cfg0 rect0 0 0).1,
      (calculateMagneticForce cfg0 rect0 0 0).2⟩ =
    Complex.arg ⟨(0 : ℝ) - rect0.centerX, (0 : ℝ) - rect0.centerY⟩ := by
  have hM : 0 ≤ cfg0.maxDisplacement := by norm_num [cfg0]
  have hc : calculateMagneticForce cfg0 rect0 0 0 = (cfg0.maxDisplacement, 0) := by
    have h := force_at_center cfg0 rect0 (by norm_num [cfg0])
    simpa [rect0] using h
  have hnz : calculateMagneticForce cfg0 rect0 0 0 ≠ (0, 0) := by
    rw [hc]
    norm_num [cfg0, Prod.ext_iff]
  exact ⟨hM, hnz, displacement_direction_toward_pointer cfg0 rect0 0 0 hM hnz⟩

/-- C10: for every word rectangle and pointer position, with maxDistance
positive and maxDisplacement nonnegative, the displacement magnitude is at
most maxDisplacement; in particular at the word center the returned vector
is exactly (maxDisplacement, 0). -/
theorem displacement_bounded (cfg : Config) (r : WordRect) (mouseX mouseY : ℝ)
    (hD : 0 < cfg.maxDistance) (hM : 0 ≤ cfg.maxDisplacement) :
    dispMag cfg r mouseX mouseY ≤ cfg.maxDisplacement ∧
    calculateMagneticForce cfg r r.centerX r.centerY = (cfg.maxDisplacement, 0) := by
  refine ⟨?_, force_at_center cfg r hD⟩
  rw [dispMag_eq_forceMagnitude cfg r mouseX mouseY hM]
  exact forceMagnitude_le cfg hD hM (distTo_nonneg r mouseX mouseY)

/-- Witness for C10: with the default options the displacement magnitude at
the pointer position (30, 40) is at most 25. -/
theorem displacement_bounded_witness :
    0 < cfg0.maxDistance ∧ 0 ≤ cfg0.maxDisplacement ∧
    dispMag cfg0 rect0 30 40 ≤ cfg0.maxDisplacement :=
  ⟨by norm_num [cfg0], by norm_num [cfg0],
   (displacement_bounded cfg0 rect0 30 40 (by norm_num [cfg0])
     (by norm_num [cfg0])).1⟩

/-- C4: the displacement magnitude is monotonically non-increasing in the
distance from the word center, it coincides with the radial profile
forceMagnitude at every pointer position, and that profile is continuous at
the maxDistance boundary: it tends to 0 as the distance approaches
maxDistance from below, matching the value 0 at the boundary itself. -/
theorem displacement_monotone_and_continuous (cfg : Config)
    (hD : 0 < cfg.maxDistance) (hM : 0 ≤ cfg.maxDisplacement) :
    (∀ (r : WordRect) (x1 y1 x2 y2 : ℝ), distTo r x1 y1 ≤ distTo r x2 y2 →
      dispMag cfg r x2 y2 ≤ dispMag cfg r x1 y1) ∧
    (∀ (r : WordRect) (x y : ℝ),
      dispMag cfg r x y = forceMagnitude cfg (distTo r x y)) ∧
    Tendsto (forceMagnitude cfg)
      (nhdsWithin cfg.maxDistance (Set.Iio cfg.maxDistance)) (nhds 0) ∧
    forceMagnitude cfg cfg.maxDistance = 0 := by
  refine ⟨?_, fun r x y => dispMag_eq_forceMagnitude cfg r x y hM,
    forceMagnitude_tendsto cfg hD, by rw [forceMagnitude, if_pos le_rfl]⟩
  intro r x1 y1 x2 y2 hle
  rw [dispMag_eq_forceMagnitude cfg r x1 y1 hM,
    dispMag_eq_forceMagnitude cfg r x2 y2 hM]
  exact forceMagnitude_anti cfg hD hM hle

/-- Witness for C4: with the default options the radial profile vanishes at
the boundary distance 200. -/
theorem displacement_monotone_and_continuous_witness :
    0 < cfg0.maxDistance ∧ 0 ≤ cfg0.maxDisplacement ∧
    forceMagnitude cfg0 cfg0.maxDistance = 0 :=
  ⟨by norm_num [cfg0], by norm_num [cfg0],
   (displacement_monotone_and_continuous cfg0 (by norm_num [cfg0])
     (by norm_num [cfg0])).2.2.2⟩

/-! Claim theorems about the lifecycle. -/

/-- C3: for every original container text and every sequence of pointer
moves, leaves, frame boundaries, resizes and timer firings while the
environment stays eligible, destroy restores content equal to the original
input text: the word texts joined with single spaces reproduce it exactly. -/
theorem destroy_restores_original_text (env : MEnv) (cfg : Config)
    (text : List Char) (ops : List Op)
    (helig : shouldInitialize env.win = true) :
    (destroy (run env cfg ops (initMState env text))).elementText = text := by
  rw [destroy_elementText, run_preserves_words env cfg helig ops]
  show joinSpace (splitOnSpace text) = text
  exact joinSpace_splitOnSpace text

/-- Witness for C3: an instance on the text Hello World, driven through a
pointer move, a resize, a frame boundary, a pointer leave and both timer
firings, restores exactly Hello World on destroy. -/
theorem destroy_restores_original_text_witness :
    shouldInitialize envM1.win = true ∧
    (destroy (run envM1 cfg0
      [Op.move (3, 4), Op.resize, Op.frame, Op.leave, Op.resizeTimer,
        Op.activeClear]
      (initMState envM1 ("Hello World".toList)))).elementText =
      "Hello World".toList :=
  ⟨rfl, destroy_restores_original_text envM1 cfg0 ("Hello World".toList) _ rfl⟩

/-- C8: the eligibility gate returns false exactly when the device reports
touch capability, or the viewport width is at most 1024 logical pixels, or a
reduced-motion preference is signalled; and on a touch-capable device init
always leaves the instance Uninitialized, whatever the viewport width and
motion preference are. -/
theorem eligibility_gate_characterization (env : Env) (element : Option (List Char)) :
    ( shouldInitialize env = false ↔
      (env.touchEventsInWindow = true ∨ 0 < env.maxTouchPoints ∨
        env.innerWidth ≤ 1024 ∨ env.prefersReducedMotion = true)) ∧
    ((env.touchEventsInWindow = true ∨ 0 < env.maxTouchPoints) →
      (init env element).state = LifecycleState.Uninitialized) := by
  have hchar : shouldInitialize env = false ↔
      (env.touchEventsInWindow = true ∨ 0 < env.maxTouchPoints ∨
        env.innerWidth ≤ 1024 ∨ env.prefersReducedMotion = true) := by
    unfold shouldInitialize
    split_ifs with h1 h2 h3 <;> simp_all
    exact h1.imp id Or.inl
  refine ⟨hchar, fun ht => ?_⟩
  have hf : shouldInitialize env = false := hchar.mpr (by tauto)
  unfold init
  rw [if_pos hf]

/-- Witness for C8: a touch-capable device yields Uninitialized even when a
container with text exists. -/
theorem eligibility_gate_characterization_witness :
    (envTouch.touchEventsInWindow = true ∨ 0 < envTouch.maxTouchPoints) ∧
    (init envTouch (some ("Hello World".toList))).state =
      LifecycleState.Uninitialized :=
  ⟨by decide,
   (eligibility_gate_characterization envTouch
     (some ("Hello World".toList))).2 (by decide)⟩

/-- C9: when the eligibility gate passes but the selector resolves to no
element, init warns and the instance stays Uninitialized: the DOM is not
mutated, no listeners are attached, no geometry is cached and no words are
created. -/
theorem missing_target_stays_uninitialized (env : Env)
    (h : shouldInitialize env = true) :
    (init env none).state = LifecycleState.Uninitialized ∧
    (init env none).warned = true ∧
    (init env none).domMutated = false ∧
    (init env none).listenersAttached = false ∧
    (init env none).geometryCached = false ∧
    (init env none).words = [] := by
  have hne : ¬ shouldInitialize env = false := by simp [h]
  unfold init
  rw [if_neg hne]
  exact ⟨rfl, rfl, rfl, rfl, rfl, rfl⟩

/-- Witness for C9: on an eligible desktop environment with a missing target
element, init warns and stays Uninitialized. -/
theorem missing_target_stays_uninitialized_witness :
    shouldInitialize envDesktop = true ∧
    (init envDesktop none).state = LifecycleState.Uninitialized ∧
    (init envDesktop none).warned = true :=
  ⟨by decide,
   (missing_target_stays_uninitialized envDesktop (by decide)).1,
   (missing_target_stays_uninitialized envDesktop (by decide)).2.1⟩

/-- C1 counterexample: a burst of two pointer moves (10, 20) then (30, 40)
delivered between two frame boundaries produces exactly one style update,
and it is computed from the first position (10, 20), not from the latest
position (30, 40): the frame callback closes over the event that scheduled
it and later events in the burst are dropped. -/
theorem raf_uses_first_position_counterexample :
    (runBurst envM1 cfg0 [((10 : ℝ), 20), (30, 40)] s0).2 = [((10 : ℝ), 20)] ∧
    ¬ ((10 : ℝ), (20 : ℝ)) = ((30 : ℝ), (40 : ℝ)) := by
  constructor
  · rw [show ([((10 : ℝ), 20), (30, 40)] : List (ℝ × ℝ)) =
        ((10 : ℝ), (20 : ℝ)) :: [((30 : ℝ), (40 : ℝ))] from rfl]
    rw [runBurst_cons envM1 cfg0 _ _ s0 rfl]
    rw [fireAnimationFrame_snd]
    rw [handleMouseMove_rafId (rfl : s0.rafId = none)]
    show [((10 : ℝ) + envM1.scrollX, (20 : ℝ) + envM1.scrollY)] = [((10 : ℝ), 20)]
    norm_num [envM1]
  · norm_num [Prod.ext_iff]

/-- C1 (amended): for every burst of pointer-move events arriving between
two consecutive frame boundaries, exactly one style update is performed, and
it is computed from the first pointer position of the burst (translated by
the scroll offsets read at the frame boundary); the pending marker is
cleared afterwards. -/
theorem raf_burst_single_update_from_first (env : MEnv) (cfg : Config)
    (p : ℝ × ℝ) (ps : List (ℝ × ℝ)) (s : MState) (h : s.rafId = none) :
    (runBurst env cfg (p :: ps) s).2 = [(p.1 + env.scrollX, p.2 + env.scrollY)] ∧
    (runBurst env cfg (p :: ps) s).1.rafId = none := by
  rw [runBurst_cons env cfg p ps s h]
  refine ⟨?_, fireAnimationFrame_rafId env cfg _⟩
  rw [fireAnimationFrame_snd, handleMouseMove_rafId h p]

/-- Witness for the amended C1: the two-event burst from the counterexample
yields the single update computed from the first event. -/
theorem raf_burst_single_update_from_first_witness :
    s0.rafId = none ∧
    (runBurst envM1 cfg0 (((10 : ℝ), (20 : ℝ)) :: [((30 : ℝ), (40 : ℝ))]) s0).2 =
      [(((10 : ℝ), (20 : ℝ)).1 + envM1.scrollX,
        ((10 : ℝ), (20 : ℝ)).2 + envM1.scrollY)] :=
  ⟨rfl, (raf_burst_single_update_from_first envM1 cfg0 ((10 : ℝ), (20 : ℝ))
    [((30 : ℝ), (40 : ℝ))] s0 rfl).1⟩

/-- C2: evaluation of the code at the failing input. After a resize event
schedules the debounce timeout, destroy returns with the timeout still
outstanding (the source only cancels the frame handle), having restored the
container text Hello World; when the timeout then fires in an environment
where the eligibility check now fails, it runs destroy again over the
cleared word list and rewrites the container text to the empty string: a
callback scheduled before destroy fires afterwards and mutates the DOM. -/
theorem destroy_leaves_resize_timer_pending :
    (destroy (handleResize s0)).resizePending = true ∧
    (destroy (handleResize s0)).elementText = "Hello World".toList ∧
    (fireResizeTimer envM0 (destroy (handleResize s0))).elementText = [] ∧
    ¬ ("Hello World".toList : List Char) = [] :=
  ⟨rfl, rfl, rfl, by decide⟩

end MagneticHeroText
